import Mathlib

/-!
Verification of the `ask-ai-command` CLI (src/ai.py) against its
natural-language specification.

The program is a single-shot command-line assistant: it concatenates its
command-line arguments into one request, hands the request to a remote
language-model agent, and on a successful structured `Answer` offers to
execute the returned shell command after a Y/N confirmation.

The embedding below models the pure control flow of `src/ai.py`:

* `Answer` mirrors the `@dataclass Answer` (lines 29-33).
* `answer` mirrors the `answer` tool callback (lines 59-71), which
  constructs an `Answer` verbatim from its arguments.
* `moduleInit` mirrors the module-level startup code (lines 36-47): the
  API-key lookup, the truthiness check `if not api_key`, and — only when
  that check passes — the construction of the agent/client.
* `main` mirrors `def main()` (lines 74-89).  Effects are made explicit:
  the agent is a parameter `String → Except String Answer` (an `Except.error`
  models `run_sync` raising a transport/protocol exception), the single
  line read by `input()` is the parameter `inputLine`, and the observable
  behaviour of a run is collected in a `RunResult` record: the lines
  printed by `print`, the prompt passed to `input` (if reached), the
  string passed to `os.system` (if invoked), the process exit status, the
  request string passed to `agent.run_sync` (if invoked), and whether an
  exception escaped `main` (an unstructured crash; CPython then prints a
  traceback and exits with status 1).
-/

namespace AskAI

/-- The `Answer` dataclass of src/ai.py lines 29-33:
`success : bool`, `cmd : str | None`, `failure : str | None`. -/
structure Answer where
  success : Bool
  cmd : Option String
  failure : Option String
deriving Repr, DecidableEq

/-- The `answer` tool callback (src/ai.py lines 59-71): it returns
`Answer(success, cmd, failure)` built verbatim from its arguments, with no
validation. -/
def answer (success : Bool) (cmd : Option String) (failure : Option String) : Answer :=
  Answer.mk success cmd failure

/-- The data-model invariant of §3 of the spec: `success = true` implies
`cmd` present and `failure` null; `success = false` implies `failure`
present and `cmd` null. -/
def AnswerInv (a : Answer) : Prop :=
  (a.success = true → a.cmd.isSome = true ∧ a.failure = none) ∧
  (a.success = false → a.failure.isSome = true ∧ a.cmd = none)

instance (a : Answer) : Decidable (AnswerInv a) := by
  unfold AnswerInv; infer_instance

/-- Rendering of a Python `str | None` value inside an f-string:
`f"{x}"` yields the string itself, or the literal text `None`. -/
def pyFStr : Option String → String
  | none => "None"
  | some s => s

/-- Python truthiness of an `Optional[str]`: `None` and the empty string
are falsy, every other string is truthy (the `if not api_key` test on
line 39). -/
def pyTruthy : Option String → Bool
  | none => false
  | some s => !(s == "")

/-- The state reached when module initialisation succeeds: the API key
that was read, and the fact that the agent/client object was constructed
(lines 43-47 run only after the key check passed). -/
structure InitState where
  apiKey : String
  agentConstructed : Bool
deriving Repr, DecidableEq

/-- The name of the required environment variable (line 38). -/
def apiKeyVar : String := "VOLCES_DEEPSEEK_API_KEY"

/-- Module-level startup (src/ai.py lines 36-47): read the API key from
the environment (`env` models `os.getenv` after `load_dotenv`), raise a
`ValueError` naming the variable when the value is absent or empty, and
otherwise construct the agent.  `Except.error` models the raised
exception: when it is produced, the agent-construction code on lines
43-47 is never reached. -/
def moduleInit (env : String → Option String) : Except String InitState :=
  let api_key := env apiKeyVar
  if pyTruthy api_key then
    Except.ok { apiKey := api_key.getD "", agentConstructed := true }
  else
    Except.error (apiKeyVar ++ " not found in environment variables")

/-- The observable behaviour of one run of `main`:
`output` is the list of lines printed via `print`, in order;
`inputPrompt` is the prompt string passed to `input`, when a line was read;
`shellCmd` is the string passed to `os.system`, when the shell was invoked;
`exitCode` is the process exit status;
`agentPrompt` is the request string passed to `agent.run_sync`, when it
was invoked; `crashed` records an exception escaping `main` uncaught. -/
structure RunResult where
  output : List String
  inputPrompt : Option String
  shellCmd : Option String
  exitCode : Nat
  agentPrompt : Option String
  crashed : Bool
deriving Repr, DecidableEq

/-- Line 75: `user_prompt = "".join(sys.argv[1:])` — the command-line
arguments (`argv` excludes the program name) concatenated with no
separator. -/
def user_prompt (argv : List String) : String := String.join argv

/-- The CLI driver `main` of src/ai.py lines 74-89, with its effects made
explicit (see the module docstring).  The empty-prompt branch calls
`sys.exit(1)`; an exception raised by `agent.run_sync` propagates out of
`main` (modelled by `crashed := true`; CPython exits with status 1);
otherwise the process terminates normally with status 0. -/
def main (argv : List String) (agent : String → Except String Answer)
    (inputLine : String) : RunResult :=
  if (user_prompt argv).length = 0 then
    { output := ["No prompts"], inputPrompt := none, shellCmd := none,
      exitCode := 1, agentPrompt := none, crashed := false }
  else
    match agent (user_prompt argv) with
    | Except.error _ =>
        { output := [], inputPrompt := none, shellCmd := none,
          exitCode := 1, agentPrompt := some (user_prompt argv), crashed := true }
    | Except.ok a =>
        if a.success && a.cmd.isSome then
          { output := ["(AI Answer): " ++ pyFStr a.cmd],
            inputPrompt := some "Execute? Y/N: ",
            shellCmd := if inputLine ∈ ["y", "Y"] then a.cmd else none,
            exitCode := 0, agentPrompt := some (user_prompt argv), crashed := false }
        else
          { output := ["(AI Answer): " ++ pyFStr a.failure, "Generate failed"],
            inputPrompt := none, shellCmd := none,
            exitCode := 0, agentPrompt := some (user_prompt argv), crashed := false }

/-- The "success" terminal outcome of §4.3/§8 of the spec: a printed
command line followed by the execute-confirmation prompt. -/
def successOutcome (r : RunResult) : Prop :=
  (∃ c, r.output = ["(AI Answer): " ++ c]) ∧ r.inputPrompt = some "Execute? Y/N: "

/-- The "failure" terminal outcome of §4.3/§8 of the spec: a printed
failure reason followed by the generic notice, with no execute prompt. -/
def failureOutcome (r : RunResult) : Prop :=
  (∃ f, r.output = ["(AI Answer): " ++ f, "Generate failed"]) ∧ r.inputPrompt = none

/-- The stub of §8 of the spec: an agent that always returns
`{success: true, cmd: "echo hi", failure: null}`. -/
def okAnswer : Answer := Answer.mk true (some "echo hi") none

/-- Agent stub returning `okAnswer` on every request. -/
def stubAgent : String → Except String Answer := fun _ => Except.ok okAnswer

/-- The stub of §8 of the spec: `{success: false, cmd: null, failure: "ambiguous request"}`. -/
def failAnswer : Answer := Answer.mk false none (some "ambiguous request")

/-- Agent stub returning `failAnswer` on every request. -/
def failAgent : String → Except String Answer := fun _ => Except.ok failAnswer

/-- An invariant-violating answer: `success` true but `cmd` null. -/
def badAnswer : Answer := Answer.mk true none none

/-- Agent stub returning `badAnswer` on every request. -/
def badAgent : String → Except String Answer := fun _ => Except.ok badAnswer

/-- Agent stub whose invocation raises a transport failure. -/
def errAgent : String → Except String Answer := fun _ => Except.error "connection refused"

/-- A string has length 0 exactly when it is the empty string. -/
lemma length_zero_iff (s : String) : s.length = 0 ↔ s = "" := by
  cases s with
  | mk data =>
    constructor
    · intro h
      cases data with
      | nil => rfl
      | cons c cs => simp [String.length] at h
    · intro h
      rw [h]
      rfl

/-- Characterisation of `main` when the prompt is non-empty and the agent
returns an `Answer`: the run is the success-branch record or the
failure-branch record according to `answer.success and answer.cmd is not None`. -/
lemma main_ok (argv : List String) (agent : String → Except String Answer)
    (inputLine : String) (a : Answer)
    (hne : user_prompt argv ≠ "")
    (hagent : agent (user_prompt argv) = Except.ok a) :
    main argv agent inputLine =
      if a.success && a.cmd.isSome then
        { output := ["(AI Answer): " ++ pyFStr a.cmd],
          inputPrompt := some "Execute? Y/N: ",
          shellCmd := if inputLine ∈ ["y", "Y"] then a.cmd else none,
          exitCode := 0, agentPrompt := some (user_prompt argv), crashed := false }
      else
        { output := ["(AI Answer): " ++ pyFStr a.failure, "Generate failed"],
          inputPrompt := none, shellCmd := none,
          exitCode := 0, agentPrompt := some (user_prompt argv), crashed := false } := by
  have hlen : ¬ (user_prompt argv).length = 0 :=
    fun h0 => hne ((length_zero_iff _).mp h0)
  unfold main
  rw [if_neg hlen, hagent]

/-- Success branch of `main_ok`, with the branch condition discharged. -/
lemma main_ok_pos (argv : List String) (agent : String → Except String Answer)
    (inputLine : String) (a : Answer)
    (hne : user_prompt argv ≠ "")
    (hagent : agent (user_prompt argv) = Except.ok a)
    (hcond : (a.success && a.cmd.isSome) = true) :
    main argv agent inputLine =
      { output := ["(AI Answer): " ++ pyFStr a.cmd],
        inputPrompt := some "Execute? Y/N: ",
        shellCmd := if inputLine ∈ ["y", "Y"] then a.cmd else none,
        exitCode := 0, agentPrompt := some (user_prompt argv), crashed := false } := by
  rw [main_ok argv agent inputLine a hne hagent, if_pos hcond]

/-- Failure branch of `main_ok`, with the branch condition discharged. -/
lemma main_ok_neg (argv : List String) (agent : String → Except String Answer)
    (inputLine : String) (a : Answer)
    (hne : user_prompt argv ≠ "")
    (hagent : agent (user_prompt argv) = Except.ok a)
    (hcond : (a.success && a.cmd.isSome) = false) :
    main argv agent inputLine =
      { output := ["(AI Answer): " ++ pyFStr a.failure, "Generate failed"],
        inputPrompt := none, shellCmd := none,
        exitCode := 0, agentPrompt := some (user_prompt argv), crashed := false } := by
  have : ¬ (a.success && a.cmd.isSome) = true := by rw [hcond]; exact Bool.false_ne_true
  rw [main_ok argv agent inputLine a hne hagent, if_neg this]

/-- Whenever the prompt is non-empty, the agent is invoked with exactly
the joined prompt, whatever it then returns. -/
lemma agentPrompt_eq (argv : List String) (agent : String → Except String Answer)
    (inputLine : String)
    (hne : user_prompt argv ≠ "") :
    (main argv agent inputLine).agentPrompt = some (user_prompt argv) := by
  have hlen : ¬ (user_prompt argv).length = 0 :=
    fun h0 => hne ((length_zero_iff _).mp h0)
  cases hag : agent (user_prompt argv) with
  | error e =>
    unfold main
    rw [if_neg hlen, hag]
  | ok a =>
    rw [main_ok argv agent inputLine a hne hag]
    split <;> rfl

/-- Claim C1: on a successful Answer (success true, with its command
present), the driver prints the command, shows the `Execute? Y/N: `
prompt, and passes the command string verbatim to the shell iff the line
read is exactly `y` or `Y`; for every other input line the shell is not
invoked, and the exit status is 0. -/
theorem C1_success_execute_gate (argv : List String)
    (agent : String → Except String Answer) (inputLine : String)
    (a : Answer) (c : String)
    (hne : user_prompt argv ≠ "")
    (hagent : agent (user_prompt argv) = Except.ok a)
    (hs : a.success = true) (hc : a.cmd = some c) :
    (main argv agent inputLine).output = ["(AI Answer): " ++ c] ∧
    (main argv agent inputLine).inputPrompt = some "Execute? Y/N: " ∧
    ((main argv agent inputLine).shellCmd = some c ↔ (inputLine = "y" ∨ inputLine = "Y")) ∧
    ((inputLine ≠ "y" ∧ inputLine ≠ "Y") → (main argv agent inputLine).shellCmd = none) ∧
    (main argv agent inputLine).exitCode = 0 := by
  have hcond : (a.success && a.cmd.isSome) = true := by rw [hs, hc]; rfl
  rw [main_ok_pos argv agent inputLine a hne hagent hcond, hc]
  refine ⟨rfl, rfl, ?_, ?_, rfl⟩
  · by_cases hy : inputLine ∈ ["y", "Y"]
    · rw [if_pos hy]
      simp only [List.mem_cons, List.not_mem_nil, or_false] at hy
      exact ⟨fun _ => hy, fun _ => rfl⟩
    · rw [if_neg hy]
      simp only [List.mem_cons, List.not_mem_nil, or_false] at hy
      constructor
      · intro h; exact absurd h (by simp)
      · intro h; exact absurd h hy
  · intro h
    have hy : ¬ inputLine ∈ ["y", "Y"] := by
      simp only [List.mem_cons, List.not_mem_nil, or_false]
      rintro (h1 | h2)
      · exact h.1 h1
      · exact h.2 h2
    rw [if_neg hy]

/-- Witness for C1 at the spec's stub: argv `["echo hi"]`, agent returning
`{success: true, cmd: "echo hi", failure: null}`, input `y`. -/
theorem C1_success_execute_gate_witness :
    user_prompt ["echo hi"] ≠ "" ∧
    stubAgent (user_prompt ["echo hi"]) = Except.ok okAnswer ∧
    okAnswer.success = true ∧ okAnswer.cmd = some "echo hi" ∧
    ((main ["echo hi"] stubAgent "y").output = ["(AI Answer): " ++ "echo hi"] ∧
     (main ["echo hi"] stubAgent "y").inputPrompt = some "Execute? Y/N: " ∧
     ((main ["echo hi"] stubAgent "y").shellCmd = some "echo hi" ↔ ("y" = "y" ∨ "y" = "Y")) ∧
     (("y" ≠ "y" ∧ "y" ≠ "Y") → (main ["echo hi"] stubAgent "y").shellCmd = none) ∧
     (main ["echo hi"] stubAgent "y").exitCode = 0) :=
  ⟨by decide, rfl, rfl, rfl,
    C1_success_execute_gate ["echo hi"] stubAgent "y" okAnswer "echo hi"
      (by decide) rfl rfl rfl⟩

/-- Claim C2: when the joined arguments are empty, the driver prints
`No prompts`, exits with status 1 (non-zero), and never invokes the
agent. -/
theorem C2_empty_prompt_rejected (argv : List String)
    (agent : String → Except String Answer) (inputLine : String)
    (h : user_prompt argv = "") :
    (main argv agent inputLine).output = ["No prompts"] ∧
    (main argv agent inputLine).exitCode = 1 ∧
    (main argv agent inputLine).exitCode ≠ 0 ∧
    (main argv agent inputLine).agentPrompt = none := by
  have hlen : (user_prompt argv).length = 0 := by rw [h]; rfl
  unfold main
  rw [if_pos hlen]
  exact ⟨rfl, rfl, by decide, rfl⟩

/-- Witness for C2 at argv `["", ""]` (empty concatenation). -/
theorem C2_empty_prompt_rejected_witness :
    user_prompt ["", ""] = "" ∧
    ((main ["", ""] stubAgent "y").output = ["No prompts"] ∧
     (main ["", ""] stubAgent "y").exitCode = 1 ∧
     (main ["", ""] stubAgent "y").exitCode ≠ 0 ∧
     (main ["", ""] stubAgent "y").agentPrompt = none) :=
  ⟨rfl, C2_empty_prompt_rejected ["", ""] stubAgent "y" rfl⟩

/-- Claim C3 counterexample: the `answer` tool callback performs no
validation, so `answer(True, None, None)` produces an `Answer` violating
the data-model invariant. -/
theorem C3_invariant_cex : ¬ AnswerInv (answer true none none) := by decide

/-- Claim C3 (amended): the `answer` tool callback returns
`Answer(success, cmd, failure)` built verbatim from its arguments with no
validation, so the produced `Answer` satisfies the data-model invariant
iff the model-supplied arguments themselves do. -/
theorem C3_answer_verbatim (s : Bool) (c f : Option String) :
    (answer s c f).success = s ∧ (answer s c f).cmd = c ∧ (answer s c f).failure = f ∧
    (AnswerInv (answer s c f) ↔
      ((s = true → c.isSome = true ∧ f = none) ∧
       (s = false → f.isSome = true ∧ c = none))) :=
  ⟨rfl, rfl, rfl, Iff.rfl⟩

/-- Claim C4: on an Answer with success false, the driver prints the
failure reason (rendered as the literal `None` when the field is null,
which serves as the generic message), then the generic `Generate failed`
notice, reads no confirmation, invokes no shell, and exits 0. -/
theorem C4_failure_branch (argv : List String)
    (agent : String → Except String Answer) (inputLine : String) (a : Answer)
    (hne : user_prompt argv ≠ "")
    (hagent : agent (user_prompt argv) = Except.ok a)
    (hs : a.success = false) :
    (main argv agent inputLine).output =
      ["(AI Answer): " ++ pyFStr a.failure, "Generate failed"] ∧
    (main argv agent inputLine).inputPrompt = none ∧
    (main argv agent inputLine).shellCmd = none ∧
    (main argv agent inputLine).exitCode = 0 := by
  have hcond : (a.success && a.cmd.isSome) = false := by rw [hs]; rfl
  rw [main_ok_neg argv agent inputLine a hne hagent hcond]
  exact ⟨rfl, rfl, rfl, rfl⟩

/-- Witness for C4 at the spec's stub: `{success: false, cmd: null,
failure: "ambiguous request"}`. -/
theorem C4_failure_branch_witness :
    user_prompt ["list files"] ≠ "" ∧
    failAgent (user_prompt ["list files"]) = Except.ok failAnswer ∧
    failAnswer.success = false ∧
    ((main ["list files"] failAgent "y").output =
       ["(AI Answer): " ++ pyFStr failAnswer.failure, "Generate failed"] ∧
     (main ["list files"] failAgent "y").inputPrompt = none ∧
     (main ["list files"] failAgent "y").shellCmd = none ∧
     (main ["list files"] failAgent "y").exitCode = 0) :=
  ⟨by decide, rfl, rfl,
    C4_failure_branch ["list files"] failAgent "y" failAnswer (by decide) rfl rfl⟩

/-- Claim C5 counterexample: the argument list `[""]` is non-empty, yet
its concatenation is empty, so the run prints `No prompts` and produces
neither of the two terminal outcomes. -/
theorem C5_exactly_one_cex :
    ¬ (successOutcome (main [""] stubAgent "n") ∨
       failureOutcome (main [""] stubAgent "n")) := by
  have hmain : main [""] stubAgent "n" =
      { output := ["No prompts"], inputPrompt := none, shellCmd := none,
        exitCode := 1, agentPrompt := none, crashed := false } := rfl
  rw [hmain]
  rintro (⟨⟨c, hc⟩, hp⟩ | ⟨⟨f, hf⟩, hp⟩)
  · exact Option.noConfusion hp
  · simp at hf

/-- Claim C5 (amended): for every argument list whose concatenation is
non-empty, a run in which the agent invocation returns an `Answer`
produces exactly one of the two terminal outcomes — printed command plus
execute-prompt, or printed failure reason — never both, never neither. -/
theorem C5_exactly_one_amended (argv : List String)
    (agent : String → Except String Answer) (inputLine : String) (a : Answer)
    (hne : user_prompt argv ≠ "")
    (hagent : agent (user_prompt argv) = Except.ok a) :
    (successOutcome (main argv agent inputLine) ∨
      failureOutcome (main argv agent inputLine)) ∧
    ¬ (successOutcome (main argv agent inputLine) ∧
       failureOutcome (main argv agent inputLine)) := by
  by_cases hcond : (a.success && a.cmd.isSome) = true
  · rw [main_ok_pos argv agent inputLine a hne hagent hcond]
    constructor
    · exact Or.inl ⟨⟨pyFStr a.cmd, rfl⟩, rfl⟩
    · rintro ⟨_, ⟨_, hp⟩⟩
      exact Option.noConfusion hp
  · rw [main_ok_neg argv agent inputLine a hne hagent (Bool.eq_false_iff.mpr hcond)]
    constructor
    · exact Or.inr ⟨⟨pyFStr a.failure, rfl⟩, rfl⟩
    · rintro ⟨⟨_, hp⟩, _⟩
      exact Option.noConfusion hp

/-- Witness for the amended C5 at the success stub. -/
theorem C5_exactly_one_amended_witness :
    user_prompt ["echo hi"] ≠ "" ∧
    stubAgent (user_prompt ["echo hi"]) = Except.ok okAnswer ∧
    ((successOutcome (main ["echo hi"] stubAgent "n") ∨
       failureOutcome (main ["echo hi"] stubAgent "n")) ∧
     ¬ (successOutcome (main ["echo hi"] stubAgent "n") ∧
        failureOutcome (main ["echo hi"] stubAgent "n"))) :=
  ⟨by decide, rfl,
    C5_exactly_one_amended ["echo hi"] stubAgent "n" okAnswer (by decide) rfl⟩

/-- Claim C6: when the API-key variable is unset or empty, module
initialisation raises the error naming `VOLCES_DEEPSEEK_API_KEY`, and the
agent/client is never constructed. -/
theorem C6_missing_api_key (env : String → Option String)
    (h : env apiKeyVar = none ∨ env apiKeyVar = some "") :
    moduleInit env = Except.error (apiKeyVar ++ " not found in environment variables") ∧
    (∀ st : InitState, moduleInit env ≠ Except.ok st) := by
  have hfalse : pyTruthy (env apiKeyVar) = false := by
    cases h with
    | inl h => rw [h]; rfl
    | inr h => rw [h]; rfl
  have herr : moduleInit env =
      Except.error (apiKeyVar ++ " not found in environment variables") := by
    simp [moduleInit, hfalse]
  exact ⟨herr, fun st hst => by rw [herr] at hst; exact Except.noConfusion hst⟩

/-- Witness for C6 with an environment that has no variables at all. -/
theorem C6_missing_api_key_witness :
    ((fun _ : String => (none : Option String)) apiKeyVar = none ∨
      (fun _ : String => (none : Option String)) apiKeyVar = some "") ∧
    (moduleInit (fun _ => none) =
       Except.error (apiKeyVar ++ " not found in environment variables") ∧
     (∀ st : InitState, moduleInit (fun _ => none) ≠ Except.ok st)) :=
  ⟨Or.inl rfl, C6_missing_api_key (fun _ => none) (Or.inl rfl)⟩

/-- Claim C7: evaluation at a failing input. When the agent invocation
raises a transport failure, `main` has no handler: the exception escapes
as an unstructured crash, the driver itself prints nothing, and the
process exits non-zero only via the interpreter's uncaught-exception
path — contradicting the claim that the error is handled at the driver
boundary. -/
theorem C7_transport_error_crashes :
    (main ["list files"] errAgent "y").crashed = true ∧
    (main ["list files"] errAgent "y").output = [] ∧
    (main ["list files"] errAgent "y").shellCmd = none ∧
    (main ["list files"] errAgent "y").exitCode = 1 :=
  ⟨rfl, rfl, rfl, rfl⟩

/-- Claim C8: whatever request string is sent to the agent equals the
concatenation of all command-line arguments in order with no separator. -/
theorem C8_request_is_concat (argv : List String)
    (agent : String → Except String Answer) (inputLine : String) (s : String)
    (h : (main argv agent inputLine).agentPrompt = some s) :
    s = user_prompt argv ∧
    user_prompt argv = List.foldl (fun acc arg => acc ++ arg) "" argv := by
  by_cases hne : user_prompt argv = ""
  · have hlen : (user_prompt argv).length = 0 := by rw [hne]; rfl
    unfold main at h
    rw [if_pos hlen] at h
    exact Option.noConfusion h
  · have hsome := agentPrompt_eq argv agent inputLine hne
    rw [h] at hsome
    have hs : s = user_prompt argv := (Option.some.injEq _ _).mp hsome
    exact ⟨hs, rfl⟩

/-- Witness for C8 at argv `["a", "b"]`: the request sent is `ab`. -/
theorem C8_request_is_concat_witness :
    (main ["a", "b"] stubAgent "n").agentPrompt = some "ab" ∧
    ("ab" = user_prompt ["a", "b"] ∧
     user_prompt ["a", "b"] =
       List.foldl (fun acc arg => acc ++ arg) "" ["a", "b"]) :=
  ⟨rfl, C8_request_is_concat ["a", "b"] stubAgent "n" "ab" rfl⟩

/-- Claim C9: on an Answer with success true but cmd null (violating the
invariant), the driver takes the failure branch: it prints the failure
field and `Generate failed`, never shows the confirmation prompt, and
never invokes the shell. -/
theorem C9_success_null_cmd_failure_branch (argv : List String)
    (agent : String → Except String Answer) (inputLine : String) (a : Answer)
    (hne : user_prompt argv ≠ "")
    (hagent : agent (user_prompt argv) = Except.ok a)
    (hs : a.success = true) (hc : a.cmd = none) :
    (main argv agent inputLine).output =
      ["(AI Answer): " ++ pyFStr a.failure, "Generate failed"] ∧
    (main argv agent inputLine).inputPrompt = none ∧
    (main argv agent inputLine).shellCmd = none := by
  have hcond : (a.success && a.cmd.isSome) = false := by rw [hs, hc]; rfl
  rw [main_ok_neg argv agent inputLine a hne hagent hcond]
  exact ⟨rfl, rfl, rfl⟩

/-- Witness for C9 at the invariant-violating stub
`{success: true, cmd: null, failure: null}`. -/
theorem C9_success_null_cmd_failure_branch_witness :
    user_prompt ["list files"] ≠ "" ∧
    badAgent (user_prompt ["list files"]) = Except.ok badAnswer ∧
    badAnswer.success = true ∧ badAnswer.cmd = none ∧
    ((main ["list files"] badAgent "y").output =
       ["(AI Answer): " ++ pyFStr badAnswer.failure, "Generate failed"] ∧
     (main ["list files"] badAgent "y").inputPrompt = none ∧
     (main ["list files"] badAgent "y").shellCmd = none) :=
  ⟨by decide, rfl, rfl, rfl,
    C9_success_null_cmd_failure_branch ["list files"] badAgent "y" badAnswer
      (by decide) rfl rfl rfl⟩

/-- Claim C10: every argument list whose concatenation is non-empty —
including whitespace-only strings — makes the driver invoke the agent
with exactly that concatenation. -/
theorem C10_nonempty_prompt_invokes_agent (argv : List String)
    (agent : String → Except String Answer) (inputLine : String)
    (h : user_prompt argv ≠ "") :
    (main argv agent inputLine).agentPrompt = some (user_prompt argv) :=
  agentPrompt_eq argv agent inputLine h

/-- Witness for C10 at the whitespace-only argv `[" "]`. -/
theorem C10_nonempty_prompt_invokes_agent_witness :
    user_prompt [" "] ≠ "" ∧
    (main [" "] stubAgent "n").agentPrompt = some (user_prompt [" "]) :=
  ⟨by decide, C10_nonempty_prompt_invokes_agent [" "] stubAgent "n" (by decide)⟩

end AskAI
